import Mathlib

/-!
# agent-vcr core: shallow embedding and verification

This file embeds the core data model and operations of the agent-vcr
repository (JSON-RPC recording / replay / diff tooling) in Lean 4 and
settles a list of claims about them.

Embedding conventions:
* Dynamic JSON values (`params`, `result`, error `data`, ...) are modelled
  by the inductive type `Json`; JSON numbers are modelled as integers since
  no claim computes with fractional values.
* Python `dict`s are modelled as association lists in insertion order;
  `dict` equality is modelled as structural equality of those lists
  (all inputs appearing in the claims use canonical key order).
* Timestamps are carried as ISO-8601 strings; wall-clock instants used for
  latency arithmetic are integer epoch seconds.
* File I/O (save/load paths, atomic rename) is elided: persistence is
  modelled as serialization to a `Json` document and validation back.
-/

namespace AgentVCR

/-- A JSON value.  Numbers are modelled as integers (see module header). -/
inductive Json where
  | null : Json
  | bool (b : Bool) : Json
  | num (n : Int) : Json
  | str (s : String) : Json
  | arr (elems : List Json) : Json
  | obj (fields : List (String × Json)) : Json
  deriving Repr

mutual

/-- Boolean structural equality on JSON values. -/
def Json.beq : Json → Json → Bool
  | .null, .null => true
  | .bool a, .bool b => a == b
  | .num a, .num b => a == b
  | .str a, .str b => a == b
  | .arr a, .arr b => Json.beqList a b
  | .obj a, .obj b => Json.beqFields a b
  | _, _ => false

/-- Boolean equality on JSON arrays. -/
def Json.beqList : List Json → List Json → Bool
  | [], [] => true
  | x :: xs, y :: ys => Json.beq x y && Json.beqList xs ys
  | _, _ => false

/-- Boolean equality on JSON object field lists. -/
def Json.beqFields : List (String × Json) → List (String × Json) → Bool
  | [], [] => true
  | (k, v) :: xs, (k2, v2) :: ys => k == k2 && Json.beq v v2 && Json.beqFields xs ys
  | _, _ => false

end

mutual

theorem Json.beq_iff_eq : ∀ a b : Json, Json.beq a b = true ↔ a = b
  | .null, .null => by simp [Json.beq]
  | .null, .bool _ | .null, .num _ | .null, .str _ | .null, .arr _ | .null, .obj _ =>
      by simp [Json.beq]
  | .bool _, .null | .bool _, .num _ | .bool _, .str _ | .bool _, .arr _ | .bool _, .obj _ =>
      by simp [Json.beq]
  | .num _, .null | .num _, .bool _ | .num _, .str _ | .num _, .arr _ | .num _, .obj _ =>
      by simp [Json.beq]
  | .str _, .null | .str _, .bool _ | .str _, .num _ | .str _, .arr _ | .str _, .obj _ =>
      by simp [Json.beq]
  | .arr _, .null | .arr _, .bool _ | .arr _, .num _ | .arr _, .str _ | .arr _, .obj _ =>
      by simp [Json.beq]
  | .obj _, .null | .obj _, .bool _ | .obj _, .num _ | .obj _, .str _ | .obj _, .arr _ =>
      by simp [Json.beq]
  | .bool a, .bool b => by simp [Json.beq]
  | .num a, .num b => by simp [Json.beq]
  | .str a, .str b => by simp [Json.beq]
  | .arr a, .arr b => by
      simp only [Json.beq, Json.arr.injEq]
      exact Json.beqList_iff_eq a b
  | .obj a, .obj b => by
      simp only [Json.beq, Json.obj.injEq]
      exact Json.beqFields_iff_eq a b

theorem Json.beqList_iff_eq : ∀ a b : List Json, Json.beqList a b = true ↔ a = b
  | [], [] => by simp [Json.beqList]
  | [], _ :: _ => by simp [Json.beqList]
  | _ :: _, [] => by simp [Json.beqList]
  | x :: xs, y :: ys => by
      simp only [Json.beqList, Bool.and_eq_true, List.cons.injEq]
      exact and_congr (Json.beq_iff_eq x y) (Json.beqList_iff_eq xs ys)

theorem Json.beqFields_iff_eq :
    ∀ a b : List (String × Json), Json.beqFields a b = true ↔ a = b
  | [], [] => by simp [Json.beqFields]
  | [], _ :: _ => by simp [Json.beqFields]
  | _ :: _, [] => by simp [Json.beqFields]
  | (k, v) :: xs, (k2, v2) :: ys => by
      simp only [Json.beqFields, Bool.and_eq_true, List.cons.injEq, Prod.mk.injEq,
        and_assoc]
      exact and_congr (by simp)
        (and_congr (Json.beq_iff_eq v v2) (Json.beqFields_iff_eq xs ys))

end

instance : DecidableEq Json := fun a b =>
  decidable_of_iff (Json.beq a b = true) (Json.beq_iff_eq a b)

/-- First-match lookup of a key in a JSON object field list
(Python `d[key]` / `key in d` on a dict). -/
def Json.lookup : List (String × Json) → String → Option Json
  | [], _ => none
  | (k, v) :: rest, key => if k = key then some v else Json.lookup rest key

/-- `key in d` for a JSON object field list. -/
def Json.hasKey (fields : List (String × Json)) (key : String) : Bool :=
  (Json.lookup fields key).isSome

/-! ## Data model (core/format.py)

Pydantic models of the .vcr recording format.  `id` is `Union[str, int, float]`
in the source; float ids are not modelled (no claim involves them).
`params` is `Optional[Union[Dict, List]]`, modelled by `Option Params`. -/

/-- A JSON-RPC message id (string or integer). -/
inductive RpcId where
  | s (v : String) : RpcId
  | n (v : Int) : RpcId
  deriving DecidableEq, Repr

/-- Request/notification params: a JSON object or a JSON array
(`Optional[Union[Dict[str, Any], List[Any]]]` with the `None` case handled
by `Option Params`). -/
inductive Params where
  | obj (fields : List (String × Json)) : Params
  | arr (elems : List Json) : Params
  deriving DecidableEq, Repr

/-- `JSONRPCRequest` (format.py).  The constant `jsonrpc: "2.0"` field is
implicit. -/
structure JSONRPCRequest where
  id : RpcId
  method : String
  params : Option Params := none
  deriving DecidableEq, Repr

/-- `JSONRPCError` (format.py). -/
structure JSONRPCError where
  code : Int
  message : String
  data : Option (List (String × Json)) := none
  deriving DecidableEq, Repr

/-- `JSONRPCResponse` (format.py).  `result: Optional[Dict[str, Any]]`,
`error: Optional[JSONRPCError]`; mutual exclusion is not enforced by the
source validator. -/
structure JSONRPCResponse where
  id : RpcId
  result : Option (List (String × Json)) := none
  error : Option JSONRPCError := none
  deriving DecidableEq, Repr

/-- `JSONRPCNotification` (format.py): method and params, no id. -/
structure JSONRPCNotification where
  method : String
  params : Option Params := none
  deriving DecidableEq, Repr

/-- Direction of the primary message of an interaction. -/
inductive Direction where
  | clientToServer : Direction
  | serverToClient : Direction
  deriving DecidableEq, Repr

/-- `VCRInteraction` (format.py).  Timestamps are carried as ISO-8601
strings; `latency_ms` is an integer (see module header). -/
structure VCRInteraction where
  sequence : Int
  timestamp : String
  direction : Direction
  request : JSONRPCRequest
  response : Option JSONRPCResponse := none
  notifications : List JSONRPCNotification := []
  latency_ms : Int
  deriving DecidableEq, Repr

/-- Transport kind recorded in the metadata. -/
inductive TransportKind where
  | stdio : TransportKind
  | sse : TransportKind
  deriving DecidableEq, Repr

/-- `VCRMetadata` (format.py). -/
structure VCRMetadata where
  version : String
  recorded_at : String
  transport : TransportKind
  client_info : List (String × Json) := []
  server_info : List (String × Json) := []
  server_command : Option String := none
  server_args : List String := []
  tags : List (String × String) := []
  deriving DecidableEq, Repr

/-- `VCRSession` (format.py). -/
structure VCRSession where
  initialize_request : JSONRPCRequest
  initialize_response : JSONRPCResponse
  capabilities : List (String × Json) := []
  interactions : List VCRInteraction := []
  deriving DecidableEq, Repr

/-- `VCRRecording` (format.py). -/
structure VCRRecording where
  format_version : String := "1.0.0"
  metadata : VCRMetadata
  session : VCRSession
  deriving DecidableEq, Repr

/-! ## Request matcher (core/matcher.py) -/

/-- The five valid matching strategies of `RequestMatcher.VALID_STRATEGIES`.
The source carries the strategy as a string validated in `__init__`;
`MatchStrategy.ofString` below is that validation. -/
inductive MatchStrategy where
  | exact : MatchStrategy
  | method : MatchStrategy
  | methodAndParams : MatchStrategy
  | fuzzy : MatchStrategy
  | sequential : MatchStrategy
  deriving DecidableEq, Repr

/-- Strategy-string validation performed by `RequestMatcher.__init__`:
anything outside `VALID_STRATEGIES` raises `ValueError`. -/
def MatchStrategy.ofString : String → Option MatchStrategy
  | "exact" => some .exact
  | "method" => some .method
  | "method_and_params" => some .methodAndParams
  | "fuzzy" => some .fuzzy
  | "sequential" => some .sequential
  | _ => none

/-- `RequestMatcher` state: the configured strategy and the sequential
cursor (`_sequential_index`). -/
structure RequestMatcher where
  strategy : MatchStrategy
  sequentialIndex : Nat := 0
  deriving DecidableEq, Repr

namespace RequestMatcher

/-- `RequestMatcher.reset_sequential_index`. -/
def reset_sequential_index (m : RequestMatcher) : RequestMatcher :=
  { m with sequentialIndex := 0 }

/-- `RequestMatcher._match_sequential`: return the next unconsumed
interaction and advance the cursor; empty when exhausted. -/
def matchSequential (m : RequestMatcher) (interactions : List VCRInteraction) :
    List VCRInteraction × RequestMatcher :=
  if h : m.sequentialIndex < interactions.length then
    ([interactions.get ⟨m.sequentialIndex, h⟩],
      { m with sequentialIndex := m.sequentialIndex + 1 })
  else
    ([], m)

/-- `RequestMatcher._match_exact`: the request payload excluding
`jsonrpc`/`id` (i.e. method and params) must equal the recorded one. -/
def matchExact (request : JSONRPCRequest) (interactions : List VCRInteraction) :
    List VCRInteraction :=
  interactions.filter fun i =>
    decide (i.request.method = request.method ∧ i.request.params = request.params)

/-- `RequestMatcher._match_method`: method name equality only. -/
def matchMethod (request : JSONRPCRequest) (interactions : List VCRInteraction) :
    List VCRInteraction :=
  interactions.filter fun i => decide (i.request.method = request.method)

/-- `RequestMatcher._match_method_and_params`: method and full params
equality (default strategy). -/
def matchMethodAndParams (request : JSONRPCRequest)
    (interactions : List VCRInteraction) : List VCRInteraction :=
  interactions.filter fun i =>
    decide (i.request.method = request.method ∧ i.request.params = request.params)

/-- `RequestMatcher._is_params_subset`: for dict params every key/value pair
of the incoming params must be present and equal in the recorded params
(recorded may have more keys); lists require exact equality; both-`None`
matches; one-sided `None` and all remaining cases fall back to equality. -/
def isParamsSubset : Option Params → Option Params → Bool
  | none, none => true
  | none, some _ => false
  | some _, none => false
  | some (.obj req), some (.obj recd) =>
      req.all fun kv =>
        match Json.lookup recd kv.1 with
        | some w => decide (w = kv.2)
        | none => false
  | some (.arr a), some (.arr b) => decide (a = b)
  | some a, some b => decide (a = b)

/-- `RequestMatcher._match_fuzzy`: method equality plus
`_is_params_subset` of the incoming params in the recorded params. -/
def matchFuzzy (request : JSONRPCRequest) (interactions : List VCRInteraction) :
    List VCRInteraction :=
  interactions.filter fun i =>
    decide (i.request.method = request.method) &&
      isParamsSubset request.params i.request.params

/-- `RequestMatcher.find_all_matches`: dispatch on the strategy.  Only the
sequential strategy mutates the matcher state. -/
def find_all_matches (m : RequestMatcher) (request : JSONRPCRequest)
    (interactions : List VCRInteraction) :
    List VCRInteraction × RequestMatcher :=
  match m.strategy with
  | .sequential => m.matchSequential interactions
  | .exact => (matchExact request interactions, m)
  | .method => (matchMethod request interactions, m)
  | .methodAndParams => (matchMethodAndParams request interactions, m)
  | .fuzzy => (matchFuzzy request interactions, m)

/-- `RequestMatcher.find_match`: `matches[0] if matches else None`. -/
def find_match (m : RequestMatcher) (request : JSONRPCRequest)
    (interactions : List VCRInteraction) :
    Option VCRInteraction × RequestMatcher :=
  let ⟨ms, m2⟩ := m.find_all_matches request interactions
  (ms.head?, m2)

end RequestMatcher

/-! ## Matcher fixtures and claims C1 / C6 -/

/-- Two recorded `tools/list` interactions with identical method and params
but different results (the multi-candidate situation of claim C1). -/
def mcInteractionA : VCRInteraction :=
  { sequence := 0
    timestamp := "2024-01-15T10:30:00"
    direction := .clientToServer
    request := { id := .n 1, method := "tools/list", params := some (.obj []) }
    response := some
      { id := .n 1, result := some [("tools", Json.arr [Json.str "a"])] }
    latency_ms := 50 }

/-- Second qualifying interaction for claim C1. -/
def mcInteractionB : VCRInteraction :=
  { sequence := 1
    timestamp := "2024-01-15T10:30:01"
    direction := .clientToServer
    request := { id := .n 2, method := "tools/list", params := some (.obj []) }
    response := some
      { id := .n 2, result := some [("tools", Json.arr [Json.str "b"])] }
    latency_ms := 50 }

/-- The incoming request matching both interactions above. -/
def mcRequest : JSONRPCRequest :=
  { id := .n 99, method := "tools/list", params := some (.obj []) }

/-- A fresh matcher with the default `method_and_params` strategy. -/
def mcMatcher0 : RequestMatcher := { strategy := .methodAndParams }

/-- C1: claimed least-used cycling ([A, B, A]) over qualifying candidates.
The source `find_match` keeps no usage counters: it returns
`matches[0]` unconditionally, so three consecutive identical requests
against two qualifying interactions A and B return A, A, A — the repo's
own test `test_duplicate_requests_get_different_responses` asserts the
claimed behavior and fails on this code. -/
theorem find_match_always_returns_first_candidate :
    (RequestMatcher.find_all_matches mcMatcher0 mcRequest
        [mcInteractionA, mcInteractionB]).1 = [mcInteractionA, mcInteractionB] ∧
    (RequestMatcher.find_match mcMatcher0 mcRequest
        [mcInteractionA, mcInteractionB]).1 = some mcInteractionA ∧
    (RequestMatcher.find_match
        (RequestMatcher.find_match mcMatcher0 mcRequest
          [mcInteractionA, mcInteractionB]).2 mcRequest
        [mcInteractionA, mcInteractionB]).1 = some mcInteractionA ∧
    (RequestMatcher.find_match
        (RequestMatcher.find_match
          (RequestMatcher.find_match mcMatcher0 mcRequest
            [mcInteractionA, mcInteractionB]).2 mcRequest
          [mcInteractionA, mcInteractionB]).2 mcRequest
        [mcInteractionA, mcInteractionB]).1 = some mcInteractionA ∧
    mcInteractionA ≠ mcInteractionB := by
  refine ⟨rfl, rfl, rfl, rfl, ?_⟩
  decide

/-- Recorded interaction with params `{a:1, b:2}` (claim C6). -/
def subsetRecordedWide : VCRInteraction :=
  { sequence := 0
    timestamp := "2024-01-15T10:30:00"
    direction := .clientToServer
    request := { id := .n 1, method := "tools/call",
                 params := some (.obj [("a", Json.num 1), ("b", Json.num 2)]) }
    response := some { id := .n 1, result := some [("ok", Json.bool true)] }
    latency_ms := 50 }

/-- Recorded interaction with params `{a:1}` (claim C6). -/
def subsetRecordedNarrow : VCRInteraction :=
  { sequence := 0
    timestamp := "2024-01-15T10:30:00"
    direction := .clientToServer
    request := { id := .n 1, method := "tools/call",
                 params := some (.obj [("a", Json.num 1)]) }
    response := some { id := .n 1, result := some [("ok", Json.bool true)] }
    latency_ms := 50 }

/-- A fuzzy (subset) strategy matcher. -/
def subsetMatcher : RequestMatcher := { strategy := .fuzzy }

/-- C6: subset/fuzzy matching is asymmetric — a request with params `{a:1}`
matches a recorded interaction with params `{a:1,b:2}` (the recording may
have extra keys), but a request with params `{a:1,b:2}` does not match a
recorded interaction with params `{a:1}` (the request may not have keys the
recording lacks). -/
theorem subset_matching_asymmetry :
    (RequestMatcher.find_match subsetMatcher
        { id := .n 99, method := "tools/call",
          params := some (.obj [("a", Json.num 1)]) }
        [subsetRecordedWide]).1 = some subsetRecordedWide ∧
    (RequestMatcher.find_match subsetMatcher
        { id := .n 99, method := "tools/call",
          params := some (.obj [("a", Json.num 1), ("b", Json.num 2)]) }
        [subsetRecordedNarrow]).1 = none := by
  exact ⟨rfl, rfl⟩

/-! ## Diff engine (diff.py)

`MCPDiff.compare` groups both recordings' interactions by method, pairs
current against baseline interactions by first method+params match, and
accumulates added/removed/modified interactions and breaking changes.
Breaking-change entries are strings in the source
(`"New method added: {m}"`, `"Method removed: {m}"`,
`"Breaking change in {m}: {diff}"`); they are modelled by the inductive
`BreakingChange` carrying the same data. -/

/-- The `{"result": ..., "error": ...}` dict built by
`MCPDiff._diff_interactions` for `ModifiedInteraction`, with `None` values
filtered out (`result`/`error` present iff non-`None`). -/
structure RespPayload where
  result : Option (List (String × Json)) := none
  error : Option JSONRPCError := none
  deriving DecidableEq, Repr

/-- `ModifiedInteraction` (diff.py).  The DeepDiff payloads
`request_diff`/`response_diff` are modelled by the booleans recording
whether they are non-`None` (their content is never consulted). -/
structure ModifiedInteraction where
  method : String
  baseline_request : String × Option Params
  current_request : String × Option Params
  baseline_response : RespPayload
  current_response : RespPayload
  request_differs : Bool
  response_differs : Bool
  deriving DecidableEq, Repr

/-- `ModifiedInteraction.is_compatible` (diff.py, lines 65-88): both
responses must be on the same error/success side, and a success baseline
requires `result` to still be present in the current response.  No other
check is performed. -/
def ModifiedInteraction.is_compatible (m : ModifiedInteraction) : Bool :=
  let baseline_is_error := m.baseline_response.error.isSome
  let current_is_error := m.current_response.error.isSome
  if baseline_is_error ≠ current_is_error then false
  else if ¬baseline_is_error ∧ m.current_response.result.isNone then false
  else true

/-- A breaking-change entry of `MCPDiffResult.breaking_changes`. -/
inductive BreakingChange where
  | newMethod (method : String) : BreakingChange
  | methodRemoved (method : String) : BreakingChange
  | breakingIn (method : String) (diff : ModifiedInteraction) : BreakingChange
  deriving DecidableEq, Repr

/-- `MCPDiffResult` (diff.py).  The `baseline_recording`/`current_recording`
back-references are omitted. -/
structure MCPDiffResult where
  is_identical : Bool
  is_compatible : Bool
  added_interactions : List VCRInteraction := []
  removed_interactions : List VCRInteraction := []
  modified_interactions : List ModifiedInteraction := []
  breaking_changes : List BreakingChange := []
  deriving DecidableEq, Repr

namespace MCPDiff

/-- The response payload dict of `_diff_interactions`
(`{"result": r, "error": e}` with `None` values dropped); the empty dict
when the interaction has no response. -/
def respPayload : Option JSONRPCResponse → RespPayload
  | none => {}
  | some r => { result := r.result, error := r.error }

/-- `MCPDiff._diff_interactions`: `None` when method+params and the
response `result`/`error` payloads coincide, otherwise a
`ModifiedInteraction`.  Responses are only compared when both are present
(`if baseline.response and current.response`). -/
def diffInteractions (baseline current : VCRInteraction) :
    Option ModifiedInteraction :=
  let request_differs : Bool :=
    decide ((baseline.request.method, baseline.request.params) ≠
      (current.request.method, current.request.params))
  let response_differs : Bool :=
    match baseline.response, current.response with
    | some br, some cr => decide ((br.result, br.error) ≠ (cr.result, cr.error))
    | _, _ => false
  if request_differs || response_differs then
    some
      { method := baseline.request.method
        baseline_request := (baseline.request.method, baseline.request.params)
        current_request := (current.request.method, current.request.params)
        baseline_response := respPayload baseline.response
        current_response := respPayload current.response
        request_differs := request_differs
        response_differs := response_differs }
  else
    none

/-- Whether two interactions' requests agree on method and params
(the pairing predicate of `_find_matching_interaction`). -/
def sameRequestKey (a b : VCRInteraction) : Bool :=
  decide (a.request.method = b.request.method ∧
    a.request.params = b.request.params)

/-- Worker for `findMatchingInteraction`, carrying the index of the next
candidate. -/
def findMatchingAux (c : VCRInteraction) :
    Nat → List VCRInteraction → Option (Nat × VCRInteraction)
  | _, [] => none
  | i, cand :: rest =>
      if sameRequestKey cand c then some (i, cand)
      else findMatchingAux c (i + 1) rest

/-- `MCPDiff._find_matching_interaction`: the first candidate whose request
method and params equal the given interaction's.  Python identity
(`id(match)`) is modelled by the candidate's list index, so the result also
carries that index. -/
def findMatchingInteraction (c : VCRInteraction)
    (candidates : List VCRInteraction) : Option (Nat × VCRInteraction) :=
  findMatchingAux c 0 candidates

/-- Worker for `firstOccur`: keep the first occurrence of each string,
skipping strings already seen. -/
def firstOccurAux (seen : List String) : List String → List String
  | [] => []
  | x :: xs =>
      if seen.contains x then firstOccurAux seen xs
      else x :: firstOccurAux (seen ++ [x]) xs

/-- The method names of a list of interactions in first-occurrence order —
the key order of the insertion-ordered `dict` built by `compare`. -/
def firstOccur (l : List String) : List String :=
  firstOccurAux [] l

/-- The method → interactions index built by `compare` (an
insertion-ordered dict of lists, modelled extensionally: keys in
first-occurrence order, each group the subsequence with that method). -/
def groupByMethod (l : List VCRInteraction) :
    List (String × List VCRInteraction) :=
  (firstOccur (l.map fun i => i.request.method)).map fun m =>
    (m, l.filter fun i => i.request.method = m)

/-- `dict.get(method)` on a grouped index. -/
def lookupGroups :
    List (String × List VCRInteraction) → String → Option (List VCRInteraction)
  | [], _ => none
  | (k, v) :: rest, m => if k = m then some v else lookupGroups rest m

/-- Accumulated diff output (the `added`/`removed`/`modified`/
`breaking_changes` lists of `compare`). -/
structure DiffAcc where
  added : List VCRInteraction := []
  removed : List VCRInteraction := []
  modified : List ModifiedInteraction := []
  breaking : List BreakingChange := []
  deriving DecidableEq, Repr

/-- One step of the per-method current-interaction loop of `compare`:
pair the current interaction with the first matching baseline interaction,
record the match index, and classify the pair as modified / breaking /
added. -/
def diffStep (m : String) (baselineList : List VCRInteraction)
    (st : List Nat × DiffAcc) (c : VCRInteraction) : List Nat × DiffAcc :=
  match findMatchingInteraction c baselineList with
  | some (j, b) =>
      let matched := st.1 ++ [j]
      match diffInteractions b c with
      | some d =>
          if d.is_compatible then
            (matched, { st.2 with modified := st.2.modified ++ [d] })
          else
            (matched,
              { st.2 with
                  modified := st.2.modified ++ [d]
                  breaking := st.2.breaking ++ [.breakingIn m d] })
      | none => (matched, st.2)
  | none => (st.1, { st.2 with added := st.2.added ++ [c] })

/-- Baseline interactions never claimed by any current interaction
(`id(b) not in baseline_matched`), in baseline order; `i` is the index of
the first listed candidate. -/
def unmatchedFrom : Nat → List VCRInteraction → List Nat → List VCRInteraction
  | _, [], _ => []
  | i, b :: rest, matched =>
      if matched.contains i then unmatchedFrom (i + 1) rest matched
      else b :: unmatchedFrom (i + 1) rest matched

/-- The per-method body of `compare` when the method exists in the
baseline: loop over the current interactions, then append the unmatched
baseline interactions to `removed`. -/
def processMethod (m : String) (baselineList currentList : List VCRInteraction)
    (acc : DiffAcc) : DiffAcc :=
  let st := currentList.foldl (diffStep m baselineList) ([], acc)
  { st.2 with removed := st.2.removed ++ unmatchedFrom 0 baselineList st.1 }

/-- Body of `compare`'s first loop (over the current recording's method
groups): methods absent from the baseline contribute added interactions
and a `New method added` breaking change; present methods run the
per-method pairing loop. -/
def compareStep1 (bg : List (String × List VCRInteraction)) (acc : DiffAcc)
    (mg : String × List VCRInteraction) : DiffAcc :=
  let baselineList := (lookupGroups bg mg.1).getD []
  if baselineList.isEmpty then
    { acc with
        added := acc.added ++ mg.2
        breaking := acc.breaking ++ [.newMethod mg.1] }
  else processMethod mg.1 baselineList mg.2 acc

/-- Body of `compare`'s second loop (over the baseline recording's method
groups): methods absent from the current recording contribute removed
interactions and a `Method removed` breaking change. -/
def compareStep2 (cg : List (String × List VCRInteraction)) (acc : DiffAcc)
    (mg : String × List VCRInteraction) : DiffAcc :=
  if (lookupGroups cg mg.1).isSome then acc
  else
    { acc with
        removed := acc.removed ++ mg.2
        breaking := acc.breaking ++ [.methodRemoved mg.1] }

/-- `MCPDiff.compare` (diff.py, lines 288-409).  The `ignore_params`
parameter is accepted but never consulted by the source body, which this
embedding mirrors.  Recording loading from file paths is elided: both
arguments are recordings. -/
def compare (baseline current : VCRRecording) (ignore_params : Bool) :
    MCPDiffResult :=
  let bg := groupByMethod baseline.session.interactions
  let cg := groupByMethod current.session.interactions
  let acc1 : DiffAcc := cg.foldl (compareStep1 bg) {}
  let acc2 : DiffAcc := bg.foldl (compareStep2 cg) acc1
  { is_identical := acc2.added.isEmpty && acc2.removed.isEmpty &&
      acc2.modified.isEmpty && acc2.breaking.isEmpty
    is_compatible := acc2.breaking.isEmpty
    added_interactions := acc2.added
    removed_interactions := acc2.removed
    modified_interactions := acc2.modified
    breaking_changes := acc2.breaking }

end MCPDiff

/-! ## Diff fixtures and claims C2 / C8 / C3 (counterexample) / C10 -/

/-- Metadata shared by the diff fixtures. -/
def diffMetadata : VCRMetadata :=
  { version := "1.0", recorded_at := "2024-01-15T10:00:00", transport := .stdio }

/-- Initialize request shared by the diff fixtures. -/
def diffInitRequest : JSONRPCRequest :=
  { id := .n 0, method := "initialize", params := some (.obj []) }

/-- Initialize response shared by the diff fixtures. -/
def diffInitResponse : JSONRPCResponse :=
  { id := .n 0, result := some [("capabilities", Json.obj [])] }

/-- A recording with the given interaction list. -/
def mkRecording (ints : List VCRInteraction) : VCRRecording :=
  { metadata := diffMetadata
    session :=
      { initialize_request := diffInitRequest
        initialize_response := diffInitResponse
        interactions := ints } }

/-- A `tools/call` interaction answering with the given result payload. -/
def resultInteraction (result : List (String × Json)) : VCRInteraction :=
  { sequence := 0
    timestamp := "2024-01-15T10:00:01"
    direction := .serverToClient
    request := { id := .n 1, method := "tools/call",
                 params := some (.obj [("name", Json.str "add")]) }
    response := some { id := .n 1, result := some result }
    latency_ms := 50 }

/-- A `tools/call` interaction answering with an error of the given code. -/
def errorInteraction (code : Int) : VCRInteraction :=
  { sequence := 0
    timestamp := "2024-01-15T10:00:01"
    direction := .serverToClient
    request := { id := .n 1, method := "tools/call",
                 params := some (.obj [("name", Json.str "add")]) }
    response := some { id := .n 1, error := some { code := code, message := "boom" } }
    latency_ms := 50 }

/-- C2: the claim says an integer → string type change of a result field
makes the modification incompatible.  The source `is_compatible` only
inspects error/success status and the presence of the `result` key — it
performs no recursive field/type check — so the type-changed modification
is reported compatible (`is_compatible = true`), contradicting the claim
and the repo's own test `test_type_change_in_result_is_breaking`.  The
sibling-field addition is also compatible, as the claim states. -/
theorem type_change_modification_reported_compatible :
    ((MCPDiff.compare (mkRecording [resultInteraction [("value", Json.num 1)]])
        (mkRecording [resultInteraction [("value", Json.str "1")]])
        false).modified_interactions.map ModifiedInteraction.is_compatible)
      = [true] ∧
    (MCPDiff.compare (mkRecording [resultInteraction [("value", Json.num 1)]])
        (mkRecording [resultInteraction [("value", Json.str "1")]])
        false).is_compatible = true ∧
    ((MCPDiff.compare (mkRecording [resultInteraction [("value", Json.num 1)]])
        (mkRecording
          [resultInteraction [("value", Json.num 1), ("extra", Json.str "x")]])
        false).modified_interactions.map ModifiedInteraction.is_compatible)
      = [true] := by
  exact ⟨rfl, rfl, rfl⟩

/-- C8: a success → error flip between baseline and current is reported
incompatible, as the claim states; but two error responses that differ
only in their error code are reported *compatible* by the source
`is_compatible` (it never compares error codes), contradicting the claim
and the repo's own test `test_different_error_code_is_breaking`. -/
theorem error_code_change_reported_compatible :
    ((MCPDiff.compare (mkRecording [resultInteraction [("value", Json.num 1)]])
        (mkRecording [errorInteraction (-32603)])
        false).modified_interactions.map ModifiedInteraction.is_compatible)
      = [false] ∧
    (MCPDiff.compare (mkRecording [resultInteraction [("value", Json.num 1)]])
        (mkRecording [errorInteraction (-32603)]) false).is_compatible
      = false ∧
    ((MCPDiff.compare (mkRecording [errorInteraction (-32603)])
        (mkRecording [errorInteraction (-32000)])
        false).modified_interactions.map ModifiedInteraction.is_compatible)
      = [true] ∧
    (MCPDiff.compare (mkRecording [errorInteraction (-32603)])
        (mkRecording [errorInteraction (-32000)]) false).is_compatible
      = true := by
  exact ⟨rfl, rfl, rfl, rfl⟩

/-- One of two fully identical-looking interactions sharing method and
params (they differ only in `sequence`/`timestamp`). -/
def dupInteraction (seq : Int) (ts : String) : VCRInteraction :=
  { sequence := seq
    timestamp := ts
    direction := .serverToClient
    request := { id := .n 1, method := "tools/call",
                 params := some (.obj [("x", Json.num 1)]) }
    response := some { id := .n 1, result := some [("ok", Json.bool true)] }
    latency_ms := 50 }

/-- A recording containing two interactions with identical method and
params. -/
def dupRecording : VCRRecording :=
  mkRecording
    [dupInteraction 0 "2024-01-15T10:00:01", dupInteraction 1 "2024-01-15T10:00:02"]

/-- C3 counterexample: for a recording containing two interactions with
identical method and params, `compare(R, R)` is *not* identical —
`_find_matching_interaction` always returns the first method+params match,
so the second baseline interaction is never claimed and lands in
`removed_interactions`. -/
theorem compare_self_not_identical_with_duplicates :
    (MCPDiff.compare dupRecording dupRecording false).is_identical = false ∧
    (MCPDiff.compare dupRecording dupRecording false).removed_interactions
      = [dupInteraction 1 "2024-01-15T10:00:02"] := by
  exact ⟨rfl, rfl⟩

/-- C10: `MCPDiff.compare` returns the same result whether `ignore_params`
is true or false — the parameter is accepted but never consulted anywhere
in the comparison. -/
theorem compare_independent_of_ignore_params
    (baseline current : VCRRecording) (flag : Bool) :
    MCPDiff.compare baseline current flag =
      MCPDiff.compare baseline current false := rfl

/-! ### Self-comparison of recordings (claim C3, amended)

The amended claim restricts diff idempotence to recordings whose
interactions carry pairwise distinct (method, params) request keys.  The
lemmas below establish the structure of `groupByMethod` and of the
per-method matching loop needed for that proof. -/

namespace MCPDiff

/-- The (method, params) pair by which the diff engine pairs
interactions. -/
def requestKey (i : VCRInteraction) : String × Option Params :=
  (i.request.method, i.request.params)

theorem sameRequestKey_iff (a b : VCRInteraction) :
    sameRequestKey a b = true ↔ requestKey a = requestKey b := by
  simp [sameRequestKey, requestKey, Prod.ext_iff]

theorem mem_of_mem_firstOccurAux :
    ∀ (l seen : List String) (x : String), x ∈ firstOccurAux seen l → x ∈ l
  | [], _, x, h => by simp [firstOccurAux] at h
  | y :: ys, seen, x, h => by
      rw [firstOccurAux] at h
      by_cases hc : seen.contains y
      · rw [if_pos hc] at h
        exact List.mem_cons_of_mem _ (mem_of_mem_firstOccurAux ys seen x h)
      · rw [if_neg hc] at h
        rcases List.mem_cons.mp h with rfl | h2
        · exact List.mem_cons_self _ _
        · exact List.mem_cons_of_mem _ (mem_of_mem_firstOccurAux ys (seen ++ [y]) x h2)

theorem not_mem_seen_of_mem_firstOccurAux :
    ∀ (l seen : List String) (x : String), x ∈ firstOccurAux seen l → x ∉ seen
  | [], _, x, h => by simp [firstOccurAux] at h
  | y :: ys, seen, x, h => by
      rw [firstOccurAux] at h
      by_cases hc : seen.contains y
      · rw [if_pos hc] at h
        exact not_mem_seen_of_mem_firstOccurAux ys seen x h
      · rw [if_neg hc] at h
        rcases List.mem_cons.mp h with rfl | h2
        · intro hx
          exact hc (List.elem_iff.mpr hx)
        · intro hx
          exact not_mem_seen_of_mem_firstOccurAux ys (seen ++ [y]) x h2
            (List.mem_append_left _ hx)

theorem firstOccurAux_nodup :
    ∀ (l seen : List String), (firstOccurAux seen l).Nodup
  | [], _ => by simp [firstOccurAux]
  | y :: ys, seen => by
      rw [firstOccurAux]
      by_cases hc : seen.contains y
      · rw [if_pos hc]
        exact firstOccurAux_nodup ys seen
      · rw [if_neg hc]
        refine List.nodup_cons.mpr ⟨?_, firstOccurAux_nodup ys (seen ++ [y])⟩
        intro hy
        exact not_mem_seen_of_mem_firstOccurAux ys (seen ++ [y]) y hy
          (List.mem_append_right _ (List.mem_singleton.mpr rfl))

theorem mem_seen_or_firstOccurAux :
    ∀ (l seen : List String) (x : String),
      x ∈ l → x ∈ seen ∨ x ∈ firstOccurAux seen l
  | [], _, x, h => by simp at h
  | y :: ys, seen, x, h => by
      rw [firstOccurAux]
      by_cases hc : seen.contains y
      · rw [if_pos hc]
        rcases List.mem_cons.mp h with rfl | h2
        · exact Or.inl (List.elem_iff.mp hc)
        · exact mem_seen_or_firstOccurAux ys seen x h2
      · rw [if_neg hc]
        rcases List.mem_cons.mp h with rfl | h2
        · exact Or.inr (List.mem_cons_self _ _)
        · rcases mem_seen_or_firstOccurAux ys (seen ++ [y]) x h2 with hs | hf
          · rcases List.mem_append.mp hs with hs2 | hy1
            · exact Or.inl hs2
            · exact Or.inr (List.mem_singleton.mp hy1 ▸ List.mem_cons_self _ _)
          · exact Or.inr (List.mem_cons_of_mem _ hf)

theorem mem_firstOccur_iff (l : List String) (x : String) :
    x ∈ firstOccur l ↔ x ∈ l := by
  constructor
  · exact mem_of_mem_firstOccurAux l [] x
  · intro h
    rcases mem_seen_or_firstOccurAux l [] x h with hs | hf
    · simp at hs
    · exact hf

theorem firstOccur_nodup (l : List String) : (firstOccur l).Nodup :=
  firstOccurAux_nodup l []

theorem groupByMethod_keys (l : List VCRInteraction) :
    (groupByMethod l).map Prod.fst =
      firstOccur (l.map fun i => i.request.method) := by
  simp only [groupByMethod, List.map_map]
  exact List.map_id _

theorem mem_groupByMethod {l : List VCRInteraction}
    {p : String × List VCRInteraction} (h : p ∈ groupByMethod l) :
    (p.1 ∈ l.map fun i => i.request.method) ∧
      p.2 = l.filter fun i => i.request.method = p.1 := by
  rcases List.mem_map.mp h with ⟨m, hm, rfl⟩
  exact ⟨(mem_firstOccur_iff _ _).mp hm, rfl⟩

theorem lookupGroups_eq_some :
    ∀ (gs : List (String × List VCRInteraction)),
      (gs.map Prod.fst).Nodup →
      ∀ mg ∈ gs, lookupGroups gs mg.1 = some mg.2
  | [], _, mg, h => absurd h (List.not_mem_nil _)
  | (k, v) :: rest, hnd, mg, h => by
      rcases List.mem_cons.mp h with rfl | h2
      · simp [lookupGroups]
      · have h0 : (∀ x, (k, x) ∉ rest) ∧ (List.map Prod.fst rest).Nodup := by
          simpa using hnd
        have hk : ¬k = mg.1 := by
          intro he
          rcases mg with ⟨m1, v1⟩
          exact h0.1 v1 (by rw [he]; exact h2)
        rw [lookupGroups, if_neg hk]
        exact lookupGroups_eq_some rest h0.2 mg h2

theorem findMatchingAux_self :
    ∀ (g : List VCRInteraction) (n i : Nat) (h : i < g.length),
      g.Pairwise (fun a b => requestKey a ≠ requestKey b) →
      findMatchingAux (g.get ⟨i, h⟩) n g = some (n + i, g.get ⟨i, h⟩)
  | [], _, i, h, _ => absurd h (by simp)
  | b :: rest, n, 0, h, _ => by
      show findMatchingAux b n (b :: rest) = some (n + 0, b)
      rw [findMatchingAux, if_pos ((sameRequestKey_iff b b).mpr rfl),
        Nat.add_zero]
  | b :: rest, n, i + 1, h, hpw => by
      have hi : i < rest.length := Nat.lt_of_succ_lt_succ h
      show findMatchingAux (rest.get ⟨i, hi⟩) n (b :: rest) =
        some (n + (i + 1), rest.get ⟨i, hi⟩)
      have hpc := List.pairwise_cons.mp hpw
      have hne : ¬sameRequestKey b (rest.get ⟨i, hi⟩) = true := by
        intro hsk
        exact hpc.1 _ (rest.get_mem _ _) ((sameRequestKey_iff _ _).mp hsk)
      rw [findMatchingAux, if_neg hne,
        findMatchingAux_self rest (n + 1) i hi hpc.2]
      have harith : n + 1 + i = n + (i + 1) := by omega
      rw [harith]

theorem findMatchingAux_self_getElem (g : List VCRInteraction) (n i : Nat)
    (h : i < g.length)
    (hpw : g.Pairwise fun a b => requestKey a ≠ requestKey b) :
    findMatchingAux g[i] n g = some (n + i, g[i]) :=
  findMatchingAux_self g n i h hpw

theorem diffInteractions_self (a : VCRInteraction) :
    diffInteractions a a = none := by
  cases hr : a.response <;> simp [diffInteractions, hr]

theorem diffFoldAux (m : String) (g : List VCRInteraction)
    (hpw : g.Pairwise fun a b => requestKey a ≠ requestKey b) :
    ∀ (suf : List VCRInteraction) (t : Nat) (acc : DiffAcc),
      g.drop t = suf → t ≤ g.length →
      suf.foldl (diffStep m g) (List.range t, acc) =
        (List.range g.length, acc)
  | [], t, acc, hdrop, hle => by
      have hge : g.length ≤ t := by
        by_contra hlt
        push_neg at hlt
        have hthis := List.drop_eq_getElem_cons hlt
        rw [hdrop] at hthis
        simp at hthis
        omega
      have ht : t = g.length := le_antisymm hle hge
      rw [ht, List.foldl_nil]
  | c :: rest, t, acc, hdrop, hle => by
      have hlt : t < g.length := by
        by_contra hge
        push_neg at hge
        rw [List.drop_eq_nil_of_le hge] at hdrop
        exact absurd hdrop (by simp)
      have hcons := List.drop_eq_getElem_cons hlt
      rw [hdrop] at hcons
      injection hcons with h1 h2
      rw [List.foldl_cons]
      have hstep : diffStep m g (List.range t, acc) c =
          (List.range (t + 1), acc) := by
        rw [h1]
        unfold diffStep findMatchingInteraction
        rw [findMatchingAux_self_getElem g 0 t hlt hpw]
        simp [diffInteractions_self, List.range_succ]
      rw [hstep]
      exact diffFoldAux m g hpw rest (t + 1) acc h2.symm hlt

theorem unmatchedFrom_range :
    ∀ (l : List VCRInteraction) (i n : Nat), i + l.length ≤ n →
      unmatchedFrom i l (List.range n) = []
  | [], _, _, _ => rfl
  | b :: rest, i, n, h => by
      have hc : (List.range n).contains i = true :=
        List.elem_iff.mpr (List.mem_range.mpr (by simp at h; omega))
      rw [unmatchedFrom, if_pos hc]
      exact unmatchedFrom_range rest (i + 1) n (by simp at h ⊢; omega)

theorem processMethod_self (m : String) (g : List VCRInteraction)
    (hpw : g.Pairwise fun a b => requestKey a ≠ requestKey b)
    (acc : DiffAcc) : processMethod m g g acc = acc := by
  have hfold : g.foldl (diffStep m g) ([], acc) =
      (List.range g.length, acc) := by
    have := diffFoldAux m g hpw g 0 acc rfl (Nat.zero_le _)
    simpa using this
  have hun : unmatchedFrom 0 g (List.range g.length) = [] :=
    unmatchedFrom_range g 0 g.length (by omega)
  unfold processMethod
  rw [hfold]
  simp only [hun, List.append_nil]

theorem foldl_fixed_of_mem {α β : Type _} (f : β → α → β) :
    ∀ (l : List α) (b : β), (∀ x ∈ l, ∀ acc, f acc x = acc) →
      l.foldl f b = b
  | [], _, _ => rfl
  | x :: xs, b, h => by
      rw [List.foldl_cons, h x (List.mem_cons_self _ _) b]
      exact foldl_fixed_of_mem f xs b fun y hy => h y (List.mem_cons_of_mem _ hy)

end MCPDiff

/-- C3 (amended): for every recording whose interactions carry pairwise
distinct (method, params) request keys, `MCPDiff.compare(R, R)` reports
is_identical = true, is_compatible = true and empty added / removed /
modified sets.  (The unrestricted claim is refuted by
the counterexample theorem on `dupRecording`.) -/
theorem compare_self_identical_of_distinct_request_keys
    (R : VCRRecording) (flag : Bool)
    (hpw : R.session.interactions.Pairwise
      fun a b => MCPDiff.requestKey a ≠ MCPDiff.requestKey b) :
    MCPDiff.compare R R flag =
      { is_identical := true
        is_compatible := true
        added_interactions := []
        removed_interactions := []
        modified_interactions := []
        breaking_changes := [] } := by
  have hkeys : ((MCPDiff.groupByMethod R.session.interactions).map
      Prod.fst).Nodup := by
    rw [MCPDiff.groupByMethod_keys]
    exact MCPDiff.firstOccur_nodup _
  have h1 : ∀ mg ∈ MCPDiff.groupByMethod R.session.interactions, ∀ acc,
      MCPDiff.compareStep1 (MCPDiff.groupByMethod R.session.interactions)
        acc mg = acc := by
    intro mg hmg acc
    have hlook := MCPDiff.lookupGroups_eq_some _ hkeys mg hmg
    have hmem := MCPDiff.mem_groupByMethod hmg
    have hne : ¬mg.2.isEmpty = true := by
      rcases List.mem_map.mp hmem.1 with ⟨i, hi, hmi⟩
      have : i ∈ R.session.interactions.filter
          fun j => j.request.method = mg.1 := by
        rw [List.mem_filter]
        exact ⟨hi, by simp [hmi]⟩
      rw [hmem.2, List.isEmpty_iff]
      exact List.ne_nil_of_mem this
    have hpw2 : mg.2.Pairwise
        fun a b => MCPDiff.requestKey a ≠ MCPDiff.requestKey b := by
      rw [hmem.2]
      exact hpw.sublist (List.filter_sublist _)
    unfold MCPDiff.compareStep1
    rw [hlook]
    simp only [Option.getD_some]
    rw [if_neg hne]
    exact MCPDiff.processMethod_self mg.1 mg.2 hpw2 acc
  have h2 : ∀ mg ∈ MCPDiff.groupByMethod R.session.interactions, ∀ acc,
      MCPDiff.compareStep2 (MCPDiff.groupByMethod R.session.interactions)
        acc mg = acc := by
    intro mg hmg acc
    have hlook := MCPDiff.lookupGroups_eq_some _ hkeys mg hmg
    unfold MCPDiff.compareStep2
    rw [hlook]
    simp
  simp only [MCPDiff.compare]
  rw [MCPDiff.foldl_fixed_of_mem _ _ _ h1, MCPDiff.foldl_fixed_of_mem _ _ _ h2]
  rfl

/-- Witness for the amended C3 theorem: a concrete two-interaction
recording with distinct request keys compares identical to itself. -/
theorem compare_self_identical_witness :
    (MCPDiff.compare
        (mkRecording
          [resultInteraction [("value", Json.num 1)],
            dupInteraction 1 "2024-01-15T10:00:02"])
        (mkRecording
          [resultInteraction [("value", Json.num 1)],
            dupInteraction 1 "2024-01-15T10:00:02"])
        false).is_identical = true := by
  rw [compare_self_identical_of_distinct_request_keys _ false (by decide)]

/-! ## Session manager (core/session.py)

State machine for building a recording.  The two wall clocks consulted by
the source (`datetime.now()` for timestamps / fallback latency and
`time.time()` for per-request latency) are modelled by a single integer
`now` argument in epoch seconds; interaction timestamps are its decimal
rendering. -/

/-- The `idle`/`recording`/`replaying` states. -/
inductive RecordingState where
  | idle : RecordingState
  | recording : RecordingState
  | replaying : RecordingState
  deriving DecidableEq, Repr

/-- `SessionManager` state (`_state`, `_current_recording`,
`_interaction_counter`, `_last_request_time`). -/
structure SessionManager where
  state : RecordingState := .idle
  currentRecording : Option VCRRecording := none
  interactionCounter : Int := 0
  lastRequestTime : Option Int := none
  deriving DecidableEq, Repr

/-- `VCRRecording.add_interaction` (format.py): append to the session's
interaction list. -/
def VCRRecording.add_interaction (r : VCRRecording) (i : VCRInteraction) :
    VCRRecording :=
  { r with session :=
      { r.session with interactions := r.session.interactions ++ [i] } }

namespace SessionManager

/-- Capability extraction inside `start_recording`: an explicitly supplied
dict wins; otherwise `initialize_response.result.get("capabilities", {})`
when the result is truthy (a non-dict value fails the pydantic
`VCRSession` validation, modelled as an error). -/
def extractCapabilities (capabilities : Option (List (String × Json)))
    (initialize_response : JSONRPCResponse) :
    Except String (List (String × Json)) :=
  match capabilities with
  | some c => .ok c
  | none =>
      match initialize_response.result with
      | none => .ok []
      | some r =>
          if r.isEmpty then .ok []
          else
            match Json.lookup r "capabilities" with
            | none => .ok []
            | some (.obj fields) => .ok fields
            | some _ => .error "ValidationError: capabilities must be a dict"

/-- `SessionManager.start_recording`: rejected when already recording;
otherwise reset the counter, extract the capabilities and create the fresh
recording with an empty interaction list. -/
def start_recording (sm : SessionManager) (metadata : VCRMetadata)
    (initialize_request : JSONRPCRequest)
    (initialize_response : JSONRPCResponse)
    (capabilities : Option (List (String × Json))) :
    Except String SessionManager :=
  if sm.state = .recording then
    .error "Already recording. Call stop_recording() first."
  else
    match extractCapabilities capabilities initialize_response with
    | .error e => .error e
    | .ok caps =>
        .ok
          { state := .recording
            currentRecording := some
              { format_version := "1.0.0"
                metadata := metadata
                session :=
                  { initialize_request := initialize_request
                    initialize_response := initialize_response
                    capabilities := caps
                    interactions := [] } }
            interactionCounter := 0
            lastRequestTime := none }

/-- `SessionManager.stop_recording`: rejected when not recording; returns
the finished recording and resets to idle. -/
def stop_recording (sm : SessionManager) :
    Except String (VCRRecording × SessionManager) :=
  if sm.state ≠ .recording then
    .error "Not recording. Call start_recording() first."
  else
    match sm.currentRecording with
    | none => .error "No recording in progress (internal error)"
    | some rec1 =>
        .ok (rec1,
          { state := .idle, currentRecording := none, interactionCounter := 0,
            lastRequestTime := none })

/-- `SessionManager.record_interaction`: rejected when not recording;
assigns `sequence = counter`, computes latency (per-request when
`request_timestamp` is given, else time since the previous call, else 0 —
and only when a response is present), sets direction from the presence of
a response, appends the interaction and increments the counter. -/
def record_interaction (sm : SessionManager) (request : JSONRPCRequest)
    (response : Option JSONRPCResponse)
    (notifications : Option (List JSONRPCNotification))
    (request_timestamp : Option Int) (now : Int) :
    Except String (VCRInteraction × SessionManager) :=
  if sm.state ≠ .recording then
    .error "Not recording. Call start_recording() first."
  else
    match sm.currentRecording with
    | none => .error "No recording in progress (internal error)"
    | some rec1 =>
        let notifications := notifications.getD []
        let latency_ms : Int :=
          if response.isSome then
            match request_timestamp with
            | some t => (now - t) * 1000
            | none =>
                match sm.lastRequestTime with
                | some l => (now - l) * 1000
                | none => 0
          else 0
        let direction : Direction :=
          if response.isNone then .clientToServer else .serverToClient
        let interaction : VCRInteraction :=
          { sequence := sm.interactionCounter
            timestamp := toString now
            direction := direction
            request := request
            response := response
            notifications := notifications
            latency_ms := latency_ms }
        .ok (interaction,
          { sm with
              currentRecording := some (rec1.add_interaction interaction)
              interactionCounter := sm.interactionCounter + 1
              lastRequestTime := some now })

/-- The arguments of one `record_interaction` call. -/
structure RecordCall where
  request : JSONRPCRequest
  response : Option JSONRPCResponse := none
  notifications : Option (List JSONRPCNotification) := none
  request_timestamp : Option Int := none
  now : Int := 0
  deriving Repr

/-- Run a sequence of `record_interaction` calls, keeping the previous
state when a call is rejected. -/
def runRecordCalls (sm : SessionManager) : List RecordCall → SessionManager
  | [] => sm
  | c :: rest =>
      match sm.record_interaction c.request c.response c.notifications
          c.request_timestamp c.now with
      | .ok p => runRecordCalls p.2 rest
      | .error _ => runRecordCalls sm rest

/-- The sequence-numbering invariant maintained by the session manager:
the counter equals the interaction count and every interaction's
`sequence` equals its index. -/
def SeqInv (sm : SessionManager) : Prop :=
  ∀ rec1, sm.currentRecording = some rec1 →
    sm.interactionCounter = (rec1.session.interactions.length : Int) ∧
    ∀ i (h : i < rec1.session.interactions.length),
      (rec1.session.interactions.get ⟨i, h⟩).sequence = (i : Int)

/-- `start_recording` establishes the sequence invariant: the fresh
recording has no interactions and counter 0. -/
theorem start_recording_inv (sm : SessionManager) (md : VCRMetadata)
    (ireq : JSONRPCRequest) (iresp : JSONRPCResponse)
    (caps : Option (List (String × Json))) (sm1 : SessionManager)
    (h : sm.start_recording md ireq iresp caps = .ok sm1) : SeqInv sm1 := by
  unfold start_recording at h
  split at h
  · exact absurd h (by simp)
  · cases hc : extractCapabilities caps iresp with
    | error e => rw [hc] at h; exact absurd h (by simp)
    | ok c =>
        rw [hc] at h
        injection h with h1
        subst h1
        intro rec1 hrec
        injection hrec with h2
        subst h2
        refine ⟨rfl, ?_⟩
        intro i hi
        exact absurd hi (by simp)

/-- `record_interaction` preserves the sequence invariant: the appended
interaction's `sequence` is the counter, which equals the previous
length. -/
theorem record_interaction_inv (sm : SessionManager)
    (request : JSONRPCRequest) (response : Option JSONRPCResponse)
    (notifications : Option (List JSONRPCNotification))
    (request_timestamp : Option Int) (now : Int)
    (p : VCRInteraction × SessionManager)
    (h : sm.record_interaction request response notifications
      request_timestamp now = .ok p)
    (hinv : SeqInv sm) : SeqInv p.2 := by
  unfold record_interaction at h
  split at h
  · exact absurd h (by simp)
  · rename_i hstate
    revert h
    split
    · intro h; exact absurd h (by simp)
    · rename_i rec1 hcur
      intro h
      injection h with h1
      subst h1
      intro rec2 hrec2
      simp only [Option.some.injEq] at hrec2
      subst hrec2
      obtain ⟨hcount, hseq⟩ := hinv rec1 hcur
      constructor
      · simp [VCRRecording.add_interaction, hcount]
      · intro i hi
        simp only [VCRRecording.add_interaction, List.length_append,
          List.length_singleton] at hi
        simp only [VCRRecording.add_interaction, List.get_eq_getElem]
        by_cases hlt : i < rec1.session.interactions.length
        · rw [List.getElem_append_left hlt]
          have := hseq i hlt
          simpa using this
        · have hieq : i = rec1.session.interactions.length := by omega
          subst hieq
          rw [List.getElem_concat_length]
          · simpa using hcount
          · rfl

/-- `runRecordCalls` preserves the sequence invariant. -/
theorem runRecordCalls_inv (calls : List SessionManager.RecordCall) :
    ∀ (sm : SessionManager), SeqInv sm →
      SeqInv (SessionManager.runRecordCalls sm calls) := by
  induction calls with
  | nil => intro sm h; exact h
  | cons c rest ih =>
      intro sm h
      unfold runRecordCalls
      split
      · rename_i p hp
        exact ih _ (record_interaction_inv sm c.request c.response
          c.notifications c.request_timestamp c.now p hp h)
      · exact ih _ h

end SessionManager

/-- C7: every recording produced by `start_recording` followed by any
number of `record_interaction` calls satisfies
`interactions[i].sequence == i` for every valid index. -/
theorem session_sequence_invariant (sm0 : SessionManager)
    (md : VCRMetadata) (ireq : JSONRPCRequest) (iresp : JSONRPCResponse)
    (caps : Option (List (String × Json))) (sm1 : SessionManager)
    (hstart : sm0.start_recording md ireq iresp caps = .ok sm1)
    (calls : List SessionManager.RecordCall) (rec1 : VCRRecording)
    (hrec : (SessionManager.runRecordCalls sm1 calls).currentRecording
      = some rec1)
    (i : Nat) (hi : i < rec1.session.interactions.length) :
    (rec1.session.interactions.get ⟨i, hi⟩).sequence = (i : Int) := by
  have hinv1 := SessionManager.start_recording_inv sm0 md ireq iresp caps
    sm1 hstart
  have hinv2 := SessionManager.runRecordCalls_inv calls sm1 hinv1
  exact (hinv2 rec1 hrec).2 i hi

/-- The session-manager state right after a concrete `start_recording`. -/
def c7Sm1 : SessionManager :=
  { state := .recording
    currentRecording := some
      { format_version := "1.0.0"
        metadata := diffMetadata
        session :=
          { initialize_request := diffInitRequest
            initialize_response := diffInitResponse
            capabilities := []
            interactions := [] } }
    interactionCounter := 0
    lastRequestTime := none }

/-- The recording after one concrete `record_interaction` call. -/
def c7FinalRec : VCRRecording :=
  { format_version := "1.0.0"
    metadata := diffMetadata
    session :=
      { initialize_request := diffInitRequest
        initialize_response := diffInitResponse
        capabilities := []
        interactions :=
          [{ sequence := 0
             timestamp := "5"
             direction := .clientToServer
             request := mcRequest
             response := none
             notifications := []
             latency_ms := 0 }] } }

/-! ## Recorder (recorder.py)

Only the state consulted by `MCPRecorder.stop` is modelled: the recording
flag, the session manager and the metadata fields used by
`_make_empty_recording`.  Transport teardown, the pending-cleanup task and
the atomic file write perform no recording-relevant state changes and are
elided; the two clocks are a single integer `now` in epoch seconds, with
`recorded_at` its decimal rendering. -/

/-- The `MCPRecorder` state consulted by `stop`. -/
structure MCPRecorder where
  transport_type : TransportKind
  server_command : Option String := none
  server_args : List String := []
  metadata_tags : List (String × String) := []
  recording_start_time : Option Int := none
  is_recording : Bool := false
  session_manager : SessionManager := {}
  deriving DecidableEq, Repr

namespace MCPRecorder

/-- `_make_empty_recording` (recorder.py, lines 51-83): the minimal valid
recording produced when stop is called before any session started — a
synthetic initialize request/response pair and zero interactions.  (The
`session_id`/`endpoint_id`/`agent_id` keyword arguments the source passes
are silently ignored by the `VCRMetadata` model, which declares no such
fields.) -/
def makeEmptyRecording (r : MCPRecorder) (now : Int) : VCRRecording :=
  { format_version := "1.0.0"
    metadata :=
      { version := "1.0"
        recorded_at := toString (r.recording_start_time.getD now)
        transport := r.transport_type
        tags := r.metadata_tags
        server_command := r.server_command
        server_args := r.server_args }
    session :=
      { initialize_request :=
          { id := .n 0, method := "initialize", params := some (.obj []) }
        initialize_response :=
          { id := .n 0, result := some [("capabilities", Json.obj [])] }
        capabilities := []
        interactions := [] } }

/-- `MCPRecorder.stop` (recorder.py, lines 279-332): raises when the
recorder is not currently recording (in particular on a second
invocation); otherwise finishes the session manager's recording when one
is in progress, or synthesizes the minimal placeholder recording, clears
the recording flag and returns the recording.  The atomic temp-file write
and rename are elided. -/
def stop (r : MCPRecorder) (now : Int) :
    Except String (VCRRecording × MCPRecorder) :=
  if ¬r.is_recording then .error "Recorder is not currently recording"
  else
    match r.session_manager.state with
    | .recording =>
        match r.session_manager.stop_recording with
        | .error e => .error e
        | .ok p =>
            .ok (p.1, { r with is_recording := false, session_manager := p.2 })
    | .idle => .ok (makeEmptyRecording r now, { r with is_recording := false })
    | .replaying =>
        .ok (makeEmptyRecording r now, { r with is_recording := false })

end MCPRecorder

/-- A recorder started but stopped before any initialize exchange: the
session manager is still idle. -/
def c5Recorder : MCPRecorder :=
  { transport_type := .stdio
    server_command := some "python"
    server_args := ["server.py"]
    recording_start_time := some 100
    is_recording := true }

/-- The recorder state after the first `stop`. -/
def c5RecorderStopped : MCPRecorder := { c5Recorder with is_recording := false }

/-- C5 counterexample: the first `stop` on a recording recorder whose
session never started succeeds with the synthetic placeholder recording,
but a second `stop` raises `RuntimeError("Recorder is not currently
recording")` — contradicting the claim that stop never raises even when
invoked a second time. -/
theorem stop_raises_on_second_invocation :
    MCPRecorder.stop c5Recorder 100 =
      .ok (MCPRecorder.makeEmptyRecording c5Recorder 100, c5RecorderStopped) ∧
    MCPRecorder.stop c5RecorderStopped 100 =
      .error "Recorder is not currently recording" := ⟨rfl, rfl⟩

/-- C5 (amended): `stop` invoked while the recorder is recording succeeds
and returns a valid recording — the synthetic placeholder with a synthetic
initialize pair and zero interactions when no initialize exchange was
captured — but `stop` invoked when the recorder is not recording
(in particular a second invocation) raises RuntimeError. -/
theorem stop_succeeds_iff_recording (r : MCPRecorder) (now : Int)
    (hinv : r.session_manager.state = .recording →
      r.session_manager.currentRecording.isSome) :
    (r.is_recording = true →
      (MCPRecorder.stop r now).isOk = true ∧
      (r.session_manager.state ≠ .recording →
        MCPRecorder.stop r now =
          .ok (MCPRecorder.makeEmptyRecording r now,
            { r with is_recording := false }) ∧
        (MCPRecorder.makeEmptyRecording r now).session.interactions = [] ∧
        (MCPRecorder.makeEmptyRecording r now).session.initialize_request.method
          = "initialize")) ∧
    (r.is_recording = false →
      MCPRecorder.stop r now = .error "Recorder is not currently recording") := by
  constructor
  · intro hrec
    constructor
    · unfold MCPRecorder.stop
      rw [if_neg (by simp [hrec])]
      cases hsm : r.session_manager.state with
      | recording =>
          have hsome := hinv hsm
          unfold SessionManager.stop_recording
          rw [if_neg (by simp [hsm])]
          cases hcur : r.session_manager.currentRecording with
          | none => rw [hcur] at hsome; simp at hsome
          | some rec1 => rfl
      | idle => rfl
      | replaying => rfl
    · intro hnotrec
      refine ⟨?_, rfl, rfl⟩
      unfold MCPRecorder.stop
      rw [if_neg (by simp [hrec])]
      cases hsm : r.session_manager.state with
      | recording => exact absurd hsm hnotrec
      | idle => rfl
      | replaying => rfl
  · intro hnot
    unfold MCPRecorder.stop
    rw [if_pos (by simp [hnot])]

/-- Witness for the amended C5 theorem at a concrete recorder state. -/
theorem stop_succeeds_iff_recording_witness :
    (MCPRecorder.stop c5Recorder 100).isOk = true ∧
    (MCPRecorder.makeEmptyRecording c5Recorder 100).session.interactions
      = [] := by
  have h := stop_succeeds_iff_recording c5Recorder 100
    (by intro h; exact absurd h (by decide))
  exact ⟨(h.1 rfl).1, ((h.1 rfl).2 (by decide)).2.1⟩

/-! ## Replayer (replayer.py)

`MCPReplayer._handle_request_with_interaction` and its callers.  The
incoming request is the raw dict consulted through `request.get("id")`,
`request.get("method")` and `request.get("params")`; an absent key and an
explicit JSON null are both Python `None`, modelled as `Json.null`.
Response JSON values are built in the source's key insertion order.
`pyStr` below is `str(...)` as applied by the f-string building the
no-match message (string escaping inside `repr` is not modelled; the
claim's message contents involve none). -/

mutual

/-- Python `str()` / `repr()` of a JSON value as used in the replayer's
no-match f-string: `None`, `True`/`False`, bare numbers, single-quoted
strings, `[...]` lists and brace-delimited dicts. -/
def Json.pyStr : Json → String
  | .null => "None"
  | .bool true => "True"
  | .bool false => "False"
  | .num n => toString n
  | .str s => "\x27" ++ s ++ "\x27"
  | .arr elems => "[" ++ Json.pyStrList elems ++ "]"
  | .obj fields => "\x7b" ++ Json.pyStrFields fields ++ "\x7d"

/-- Comma-separated renderings of a JSON array's elements. -/
def Json.pyStrList : List Json → String
  | [] => ""
  | [x] => Json.pyStr x
  | x :: rest => Json.pyStr x ++ ", " ++ Json.pyStrList rest

/-- Comma-separated `'key': value` renderings of a JSON object's
fields. -/
def Json.pyStrFields : List (String × Json) → String
  | [] => ""
  | [(k, v)] => "\x27" ++ k ++ "\x27: " ++ Json.pyStr v
  | (k, v) :: rest =>
      "\x27" ++ k ++ "\x27: " ++ Json.pyStr v ++ ", " ++ Json.pyStrFields rest

end

/-- The three keys of the incoming request dict consulted by
`_handle_request_with_interaction`; `Json.null` models a key that is
absent or explicitly null (both read back as Python `None`). -/
structure RawRequest where
  id : Json := .null
  method : Json := .null
  params : Json := .null
  deriving DecidableEq, Repr

/-- Pydantic validation of the `id` field of `JSONRPCRequest`: a string or
a number; anything else (including `None`) raises. -/
def parseRpcId : Json → Option RpcId
  | .str s => some (.s s)
  | .num n => some (.n n)
  | _ => none

/-- Pydantic validation of the `params` field: `None`, a dict or a list;
anything else raises. -/
def parseParamsField : Json → Option (Option Params)
  | .null => some none
  | .obj fields => some (some (.obj fields))
  | .arr elems => some (some (.arr elems))
  | _ => none

/-- The `JSONRPCRequest(jsonrpc="2.0", id=msg_id, method=method,
params=params)` construction of the replayer, `none` when pydantic
validation raises. -/
def parseRequest (raw : RawRequest) : Option JSONRPCRequest :=
  match parseRpcId raw.id, raw.method, parseParamsField raw.params with
  | some i, .str m, some p => some { id := i, method := m, params := p }
  | _, _, _ => none

/-- The f-string `No recorded interaction matching {method}({params})` of
the no-match branch (`method` is the parsed string, `params` the raw
value). -/
def noMatchMessage (method : String) (params : Json) : String :=
  "No recorded interaction matching " ++ method ++ "(" ++ params.pyStr ++ ")"

/-- `JSONRPCError.model_dump(exclude_none=True)`. -/
def errorModelDump (e : JSONRPCError) : Json :=
  .obj ([("code", .num e.code), ("message", .str e.message)] ++
    (match e.data with
     | some d => [("data", Json.obj d)]
     | none => []))

namespace MCPReplayer

/-- `MCPReplayer._error_response`: a JSON-RPC error response dict; the
`id` key is appended only when `msg_id is not None`. -/
def errorResponse (msg_id : Json) (message : String) (code : Int) : Json :=
  .obj ([("jsonrpc", .str "2.0"),
    ("error", .obj [("code", .num code), ("message", .str message)])] ++
    (if msg_id = .null then [] else [("id", msg_id)]))

/-- First-match lookup in the response-override dict. -/
def overridesLookup : List (Json × Json) → Json → Option Json
  | [], _ => none
  | (k, v) :: rest, key => if k = key then some v else overridesLookup rest key

/-- `dict.pop`: drop the overridden entry. -/
def overridesRemove : List (Json × Json) → Json → List (Json × Json)
  | [], _ => []
  | (k, v) :: rest, key =>
      if k = key then rest else (k, v) :: overridesRemove rest key

end MCPReplayer

/-- `MCPReplayer` state consulted by `handle_request`: the recorded
interactions, the matcher and the one-shot response overrides.
(`simulate_latency`/`latency_multiplier` only affect the async sleep and
are elided.) -/
structure MCPReplayer where
  interactions : List VCRInteraction
  matcher : RequestMatcher
  response_overrides : List (Json × Json) := []
  deriving DecidableEq, Repr

namespace MCPReplayer

/-- `MCPReplayer._handle_request_with_interaction` (replayer.py, lines
176-239): consume a pending override; else parse the request (a pydantic
failure becomes a -32603 error response); else run the matcher — no match
yields the -32601 error response naming the unmatched method and params;
a match with no recorded response yields a -32603 error; otherwise the
recorded result or error is returned under the incoming request's id.
Total: every branch returns a response, none raises. -/
def handleRequestWithInteraction (rp : MCPReplayer) (raw : RawRequest) :
    Json × Option VCRInteraction × MCPReplayer :=
  match overridesLookup rp.response_overrides raw.id with
  | some resp =>
      (resp, none,
        { rp with
            response_overrides := overridesRemove rp.response_overrides raw.id })
  | none =>
      match parseRequest raw with
      | none =>
          (errorResponse raw.id "Failed to parse request: ValidationError"
            (-32603), none, rp)
      | some req =>
          let found := rp.matcher.find_match req rp.interactions
          let rp2 := { rp with matcher := found.2 }
          match found.1 with
          | none =>
              (errorResponse raw.id (noMatchMessage req.method raw.params)
                (-32601), none, rp2)
          | some interaction =>
              match interaction.response with
              | none =>
                  (errorResponse raw.id
                    ("Interaction " ++ req.method ++ " has no recorded response")
                    (-32603), some interaction, rp2)
              | some response_obj =>
                  let base := [("jsonrpc", Json.str "2.0"), ("id", raw.id)]
                  let resp :=
                    match response_obj.result with
                    | some r => base ++ [("result", Json.obj r)]
                    | none =>
                        match response_obj.error with
                        | some e => base ++ [("error", errorModelDump e)]
                        | none => base
                  (Json.obj resp, some interaction, rp2)

/-- `MCPReplayer.handle_request`: the response of
`_handle_request_with_interaction` plus the updated replayer state. -/
def handle_request (rp : MCPReplayer) (raw : RawRequest) :
    Json × MCPReplayer :=
  let r := handleRequestWithInteraction rp raw
  (r.1, r.2.2)

end MCPReplayer

/-- C4: for every incoming request that parses as a JSON-RPC request, has
no pending response override for its id, and matches no recorded
interaction under the configured strategy, `handle_request` returns (and
does not raise — the embedded function is total, every branch of the
source converts to a response) the well-formed JSON-RPC error response
with code -32601 whose message names the unmatched method and params. -/
theorem handle_request_no_match_returns_error_response
    (rp : MCPReplayer) (raw : RawRequest) (req : JSONRPCRequest)
    (hparse : parseRequest raw = some req)
    (hoverride : MCPReplayer.overridesLookup rp.response_overrides raw.id
      = none)
    (hnomatch : (rp.matcher.find_match req rp.interactions).1 = none) :
    (MCPReplayer.handle_request rp raw).1 =
      MCPReplayer.errorResponse raw.id
        (noMatchMessage req.method raw.params) (-32601) ∧
    Json.lookup
      [("jsonrpc", Json.str "2.0"),
        ("error", Json.obj [("code", Json.num (-32601)),
          ("message", Json.str (noMatchMessage req.method raw.params))])]
      "error" =
      some (Json.obj [("code", Json.num (-32601)),
        ("message", Json.str ("No recorded interaction matching "
          ++ req.method ++ "(" ++ raw.params.pyStr ++ ")"))]) := by
  constructor
  · unfold MCPReplayer.handle_request MCPReplayer.handleRequestWithInteraction
    rw [hoverride, hparse]
    rcases hfm : rp.matcher.find_match req rp.interactions with ⟨mi, m2⟩
    rw [hfm] at hnomatch
    simp only at hnomatch
    subst hnomatch
    simp [hfm]
  · simp [Json.lookup, noMatchMessage]

/-- Witness for C4: a concrete replayer with an empty recording returns
the -32601 no-match error for a concrete request. -/
theorem handle_request_no_match_witness :
    (MCPReplayer.handle_request
        { interactions := [], matcher := { strategy := .methodAndParams } }
        { id := .num 7, method := .str "tools/none", params := .null }).1 =
      MCPReplayer.errorResponse (.num 7)
        (noMatchMessage "tools/none" .null) (-32601) := by
  exact (handle_request_no_match_returns_error_response
    { interactions := [], matcher := { strategy := .methodAndParams } }
    { id := .num 7, method := .str "tools/none", params := .null }
    { id := .n 7, method := "tools/none", params := none }
    rfl rfl rfl).1

/-- Witness for C7: a concrete start_recording / record_interaction run
whose produced recording satisfies the sequence invariant at index 0. -/
theorem session_sequence_invariant_witness :
    (SessionManager.runRecordCalls c7Sm1
        [{ request := mcRequest, now := 5 }]).currentRecording
      = some c7FinalRec ∧
    (c7FinalRec.session.interactions.get ⟨0, by decide⟩).sequence
      = (0 : Int) := by
  refine ⟨rfl, ?_⟩
  exact session_sequence_invariant {} diffMetadata diffInitRequest
    diffInitResponse (some []) c7Sm1 rfl
    [{ request := mcRequest, now := 5 }] c7FinalRec rfl 0 (by decide)

/-! ## Persistence round trip (core/format.py, claim C9)

`VCRRecording.save` serializes `model_dump(mode="json")` as a JSON
document; `VCRRecording.load` reads the document back and runs
`model_validate`.  The document is modelled as a `Json` value (the JSON
text round-trips losslessly through `json.dump`/`json.load`); the
validators below accept the exact serialized shape (pydantic is
additionally lenient about field order and extra keys, which `save` never
produces). -/

/-- `mode="json"` serialization of an id. -/
def RpcId.dump : RpcId → Json
  | .s v => .str v
  | .n v => .num v

/-- `mode="json"` serialization of params. -/
def Params.dump : Params → Json
  | .obj fields => .obj fields
  | .arr elems => .arr elems

/-- Serialization of an optional field: `None` becomes JSON null. -/
def dumpOpt (f : α → Json) : Option α → Json
  | none => .null
  | some x => f x

/-- `JSONRPCRequest.model_dump(mode="json")`. -/
def JSONRPCRequest.dump (r : JSONRPCRequest) : Json :=
  .obj [("jsonrpc", .str "2.0"), ("id", r.id.dump),
    ("method", .str r.method), ("params", dumpOpt Params.dump r.params)]

/-- `JSONRPCError.model_dump(mode="json")`. -/
def JSONRPCError.dump (e : JSONRPCError) : Json :=
  .obj [("code", .num e.code), ("message", .str e.message),
    ("data", dumpOpt Json.obj e.data)]

/-- `JSONRPCResponse.model_dump(mode="json")`. -/
def JSONRPCResponse.dump (r : JSONRPCResponse) : Json :=
  .obj [("jsonrpc", .str "2.0"), ("id", r.id.dump),
    ("result", dumpOpt Json.obj r.result),
    ("error", dumpOpt JSONRPCError.dump r.error)]

/-- `JSONRPCNotification.model_dump(mode="json")`. -/
def JSONRPCNotification.dump (n : JSONRPCNotification) : Json :=
  .obj [("jsonrpc", .str "2.0"), ("method", .str n.method),
    ("params", dumpOpt Params.dump n.params)]

/-- Serialization of the direction literal. -/
def Direction.dump : Direction → Json
  | .clientToServer => .str "client_to_server"
  | .serverToClient => .str "server_to_client"

/-- Serialization of the transport literal. -/
def TransportKind.dump : TransportKind → Json
  | .stdio => .str "stdio"
  | .sse => .str "sse"

/-- `VCRInteraction.model_dump(mode="json")`. -/
def VCRInteraction.dump (i : VCRInteraction) : Json :=
  .obj [("sequence", .num i.sequence), ("timestamp", .str i.timestamp),
    ("direction", i.direction.dump), ("request", i.request.dump),
    ("response", dumpOpt JSONRPCResponse.dump i.response),
    ("notifications", .arr (i.notifications.map JSONRPCNotification.dump)),
    ("latency_ms", .num i.latency_ms)]

/-- `VCRMetadata.model_dump(mode="json")`. -/
def VCRMetadata.dump (m : VCRMetadata) : Json :=
  .obj [("version", .str m.version), ("recorded_at", .str m.recorded_at),
    ("transport", m.transport.dump), ("client_info", .obj m.client_info),
    ("server_info", .obj m.server_info),
    ("server_command", dumpOpt Json.str m.server_command),
    ("server_args", .arr (m.server_args.map Json.str)),
    ("tags", .obj (m.tags.map fun kv => (kv.1, Json.str kv.2)))]

/-- `VCRSession.model_dump(mode="json")`. -/
def VCRSession.dump (s : VCRSession) : Json :=
  .obj [("initialize_request", s.initialize_request.dump),
    ("initialize_response", s.initialize_response.dump),
    ("capabilities", .obj s.capabilities),
    ("interactions", .arr (s.interactions.map VCRInteraction.dump))]

/-- The JSON document written by `VCRRecording.save`
(`model_dump(mode="json")`). -/
def VCRRecording.dumpJson (r : VCRRecording) : Json :=
  .obj [("format_version", .str r.format_version),
    ("metadata", r.metadata.dump), ("session", r.session.dump)]

/-- Validation of an optional field: JSON null becomes `None`. -/
def parseOptWith (f : Json → Option α) : Json → Option (Option α)
  | .null => some none
  | j => (f j).map some

/-- Validation of a dict-valued field. -/
def parseObjFields : Json → Option (List (String × Json))
  | .obj fields => some fields
  | _ => none

/-- Validation of a string-valued field. -/
def parseStr : Json → Option String
  | .str s => some s
  | _ => none

/-- Elementwise validation of a JSON array. -/
def parseListWith (f : Json → Option α) : List Json → Option (List α)
  | [] => some []
  | x :: rest =>
      match f x, parseListWith f rest with
      | some a, some l => some (a :: l)
      | _, _ => none

/-- Validation of the string-to-string `tags` dict. -/
def parseTagFields : List (String × Json) → Option (List (String × String))
  | [] => some []
  | (k, .str v) :: rest => (parseTagFields rest).map (fun l => (k, v) :: l)
  | _ => none

/-- Validation of the direction literal. -/
def parseDirection : Json → Option Direction
  | .str "client_to_server" => some .clientToServer
  | .str "server_to_client" => some .serverToClient
  | _ => none

/-- Validation of the transport literal. -/
def parseTransport : Json → Option TransportKind
  | .str "stdio" => some .stdio
  | .str "sse" => some .sse
  | _ => none

/-- `model_validate` for `JSONRPCRequest` on the serialized shape. -/
def JSONRPCRequest.validate : Json → Option JSONRPCRequest
  | .obj [("jsonrpc", .str "2.0"), ("id", i), ("method", .str m),
      ("params", p)] =>
      match parseRpcId i, parseParamsField p with
      | some id2, some params2 =>
          some { id := id2, method := m, params := params2 }
      | _, _ => none
  | _ => none

/-- `model_validate` for `JSONRPCError` on the serialized shape. -/
def JSONRPCError.validate : Json → Option JSONRPCError
  | .obj [("code", .num c), ("message", .str m), ("data", d)] =>
      match parseOptWith parseObjFields d with
      | some data2 => some { code := c, message := m, data := data2 }
      | none => none
  | _ => none

/-- `model_validate` for `JSONRPCResponse` on the serialized shape. -/
def JSONRPCResponse.validate : Json → Option JSONRPCResponse
  | .obj [("jsonrpc", .str "2.0"), ("id", i), ("result", r), ("error", e)] =>
      match parseRpcId i, parseOptWith parseObjFields r,
          parseOptWith JSONRPCError.validate e with
      | some id2, some result2, some error2 =>
          some { id := id2, result := result2, error := error2 }
      | _, _, _ => none
  | _ => none

/-- `model_validate` for `JSONRPCNotification` on the serialized shape. -/
def JSONRPCNotification.validate : Json → Option JSONRPCNotification
  | .obj [("jsonrpc", .str "2.0"), ("method", .str m), ("params", p)] =>
      match parseParamsField p with
      | some params2 => some { method := m, params := params2 }
      | none => none
  | _ => none

/-- `model_validate` for `VCRInteraction` on the serialized shape. -/
def VCRInteraction.validate : Json → Option VCRInteraction
  | .obj [("sequence", .num sq), ("timestamp", .str ts), ("direction", d),
      ("request", rq), ("response", rs), ("notifications", .arr ns),
      ("latency_ms", .num lm)] =>
      match parseDirection d, JSONRPCRequest.validate rq,
          parseOptWith JSONRPCResponse.validate rs,
          parseListWith JSONRPCNotification.validate ns with
      | some d2, some rq2, some rs2, some ns2 =>
          some { sequence := sq, timestamp := ts, direction := d2,
                 request := rq2, response := rs2, notifications := ns2,
                 latency_ms := lm }
      | _, _, _, _ => none
  | _ => none

/-- `model_validate` for `VCRMetadata` on the serialized shape. -/
def VCRMetadata.validate : Json → Option VCRMetadata
  | .obj [("version", .str v), ("recorded_at", .str ra), ("transport", t),
      ("client_info", ci), ("server_info", si), ("server_command", sc),
      ("server_args", .arr sa), ("tags", .obj tg)] =>
      match parseTransport t, parseObjFields ci, parseObjFields si,
          parseOptWith parseStr sc, parseListWith parseStr sa,
          parseTagFields tg with
      | some t2, some ci2, some si2, some sc2, some sa2, some tg2 =>
          some { version := v, recorded_at := ra, transport := t2,
                 client_info := ci2, server_info := si2,
                 server_command := sc2, server_args := sa2, tags := tg2 }
      | _, _, _, _, _, _ => none
  | _ => none

/-- `model_validate` for `VCRSession` on the serialized shape. -/
def VCRSession.validate : Json → Option VCRSession
  | .obj [("initialize_request", irq), ("initialize_response", irs),
      ("capabilities", cp), ("interactions", .arr ins)] =>
      match JSONRPCRequest.validate irq, JSONRPCResponse.validate irs,
          parseObjFields cp, parseListWith VCRInteraction.validate ins with
      | some irq2, some irs2, some cp2, some ins2 =>
          some { initialize_request := irq2, initialize_response := irs2,
                 capabilities := cp2, interactions := ins2 }
      | _, _, _, _ => none
  | _ => none

/-- `VCRRecording.model_validate` (the validation step of
`VCRRecording.load`) on the serialized shape. -/
def VCRRecording.validate : Json → Option VCRRecording
  | .obj [("format_version", .str fv), ("metadata", md), ("session", ss)] =>
      match VCRMetadata.validate md, VCRSession.validate ss with
      | some md2, some ss2 =>
          some { format_version := fv, metadata := md2, session := ss2 }
      | _, _ => none
  | _ => none

/-- Ids round-trip through serialization. -/
theorem parseRpcId_dump (i : RpcId) : parseRpcId i.dump = some i := by
  cases i <;> rfl

/-- Params round-trip through serialization. -/
theorem parseParamsField_dump (p : Option Params) :
    parseParamsField (dumpOpt Params.dump p) = some p := by
  rcases p with _ | p
  · rfl
  · cases p <;> rfl

/-- Optional dict fields round-trip through serialization. -/
theorem parseOptWith_obj_dump (d : Option (List (String × Json))) :
    parseOptWith parseObjFields (dumpOpt Json.obj d) = some d := by
  cases d <;> rfl

/-- Optional string fields round-trip through serialization. -/
theorem parseOptWith_str_dump (v : Option String) :
    parseOptWith parseStr (dumpOpt Json.str v) = some v := by
  cases v <;> rfl

/-- Requests round-trip through serialization. -/
theorem request_validate_dump (r : JSONRPCRequest) :
    JSONRPCRequest.validate r.dump = some r := by
  rcases r with ⟨i, m, p⟩
  simp [JSONRPCRequest.dump, JSONRPCRequest.validate, parseRpcId_dump,
    parseParamsField_dump]

/-- Errors round-trip through serialization. -/
theorem error_validate_dump (e : JSONRPCError) :
    JSONRPCError.validate e.dump = some e := by
  rcases e with ⟨c, m, d⟩
  simp [JSONRPCError.dump, JSONRPCError.validate, parseOptWith_obj_dump]

/-- Optional error fields round-trip through serialization. -/
theorem parseOptWith_error_dump (e : Option JSONRPCError) :
    parseOptWith JSONRPCError.validate (dumpOpt JSONRPCError.dump e)
      = some e := by
  cases e with
  | none => rfl
  | some e =>
      show (JSONRPCError.validate e.dump).map some = some (some e)
      rw [error_validate_dump]
      rfl

/-- Responses round-trip through serialization. -/
theorem response_validate_dump (r : JSONRPCResponse) :
    JSONRPCResponse.validate r.dump = some r := by
  rcases r with ⟨i, res, err⟩
  simp [JSONRPCResponse.dump, JSONRPCResponse.validate, parseRpcId_dump,
    parseOptWith_obj_dump, parseOptWith_error_dump]

/-- Optional response fields round-trip through serialization. -/
theorem parseOptWith_response_dump (r : Option JSONRPCResponse) :
    parseOptWith JSONRPCResponse.validate (dumpOpt JSONRPCResponse.dump r)
      = some r := by
  cases r with
  | none => rfl
  | some r =>
      show (JSONRPCResponse.validate r.dump).map some = some (some r)
      rw [response_validate_dump]
      rfl

/-- Notifications round-trip through serialization. -/
theorem notification_validate_dump (n : JSONRPCNotification) :
    JSONRPCNotification.validate n.dump = some n := by
  rcases n with ⟨m, p⟩
  simp [JSONRPCNotification.dump, JSONRPCNotification.validate,
    parseParamsField_dump]

/-- Elementwise-valid lists round-trip through serialization. -/
theorem parseListWith_map {α : Type _} (f : Json → Option α) (g : α → Json)
    (h : ∀ a, f (g a) = some a) :
    ∀ l : List α, parseListWith f (l.map g) = some l
  | [] => rfl
  | x :: rest => by
      simp [parseListWith, h x, parseListWith_map f g h rest]

/-- The string-to-string `tags` dict round-trips through serialization. -/
theorem parseTagFields_map :
    ∀ tags : List (String × String),
      parseTagFields (tags.map fun kv => (kv.1, Json.str kv.2)) = some tags
  | [] => rfl
  | (k, v) :: rest => by
      simp [parseTagFields, parseTagFields_map rest]

/-- Direction literals round-trip through serialization. -/
theorem parseDirection_dump (d : Direction) :
    parseDirection d.dump = some d := by
  cases d <;> rfl

/-- Transport literals round-trip through serialization. -/
theorem parseTransport_dump (t : TransportKind) :
    parseTransport t.dump = some t := by
  cases t <;> rfl

/-- Interactions round-trip through serialization. -/
theorem interaction_validate_dump (i : VCRInteraction) :
    VCRInteraction.validate i.dump = some i := by
  rcases i with ⟨sq, ts, d, rq, rs, ns, lm⟩
  simp [VCRInteraction.dump, VCRInteraction.validate, parseDirection_dump,
    request_validate_dump, parseOptWith_response_dump,
    parseListWith_map JSONRPCNotification.validate JSONRPCNotification.dump
      notification_validate_dump]

/-- Metadata round-trips through serialization. -/
theorem metadata_validate_dump (m : VCRMetadata) :
    VCRMetadata.validate m.dump = some m := by
  rcases m with ⟨v, ra, t, ci, si, sc, sa, tg⟩
  simp [VCRMetadata.dump, VCRMetadata.validate, parseTransport_dump,
    parseObjFields, parseOptWith_str_dump,
    parseListWith_map parseStr Json.str (fun a => rfl),
    parseTagFields_map]

/-- Sessions round-trip through serialization. -/
theorem session_validate_dump (s : VCRSession) :
    VCRSession.validate s.dump = some s := by
  rcases s with ⟨irq, irs, cp, ins⟩
  simp [VCRSession.dump, VCRSession.validate, request_validate_dump,
    response_validate_dump, parseObjFields,
    parseListWith_map VCRInteraction.validate VCRInteraction.dump
      interaction_validate_dump]

/-- C9: loading the document produced by saving a recording yields a
recording structurally equal to the original — in particular the same
sequence numbers, the same interaction ordering and the same notification
lists, since the equality is of whole `VCRRecording` values. -/
theorem load_after_save_roundtrip (r : VCRRecording) :
    VCRRecording.validate (VCRRecording.dumpJson r) = some r := by
  rcases r with ⟨fv, md, ss⟩
  simp [VCRRecording.dumpJson, VCRRecording.validate,
    metadata_validate_dump, session_validate_dump]

end AgentVCR
